import Mathlib

/-!
# Verification of the Connections lookup service (`src/main.py`)

A shallow embedding of the FastAPI service in `main.py`:

* `parse_date_string` embeds `parse_date_string`, i.e.
  `datetime.strptime(date_str, "%Y-%m-%d").date()` with `ValueError`
  translated to an HTTP 400.  CPython's `_strptime` compiles the format to
  the anchored regex
  `(\d\d\d\d)-(1[0-2]|0[1-9]|[1-9])-(3[01]|[12]\d|0[1-9]|[1-9]| [1-9])`
  (note the blank-padded day alternative at the end of `%d`) and raises
  `ValueError` unless the regex consumes the whole string; `int()` on the
  captured groups ignores the captured blank; the `datetime` constructor
  then rejects year 0 and days past the month length.  The `\d` class of
  the `re` module matches every Unicode decimal digit; the embedding
  models its ASCII fragment `0-9`, so it is exact on ASCII request
  strings, and the universally quantified rejection theorem below is
  stated for ASCII request strings (`isASCII`).
* `formatDate` embeds `game_date.strftime("%Y-%m-%d")` (zero-padded fields).
* `get_connections_game` embeds the `/v1/connections/{date}` handler
  together with the `get_db_connection` context manager; the backend's
  behaviour for the request is an explicit `DbOutcome` argument
  (connection failure / query failure / the rows of the `solutions` table),
  and the returned `ConnTrace` records the connection lifecycle events and
  the query actually sent.
* `health_check` embeds the `/health` handler.
-/

namespace Connections

/-- ASCII decimal-digit test (`\d` of the strptime regex, ASCII range). -/
def isDig (c : Char) : Bool := 48 ≤ c.toNat && c.toNat ≤ 57

/-- Numeric value of a digit character. -/
def dval (c : Char) : Nat := c.toNat - 48

/-- The digit character for `n < 10`. -/
def digitChar (n : Nat) : Char := Char.ofNat (48 + n)

/-- Numeric value of a digit string, as Python's `int` on digit characters. -/
def digitsToNat (l : List Char) : Nat := l.foldl (fun a c => 10 * a + dval c) 0

/-- Proleptic-Gregorian leap-year rule used by `datetime.date`. -/
def isLeapYear (y : Nat) : Bool := y % 4 == 0 && (y % 100 != 0 || y % 400 == 0)

/-- Number of days in month `m` of year `y` (as `datetime.date` enforces). -/
def daysInMonth (y m : Nat) : Nat :=
  if m = 2 then (if isLeapYear y then 29 else 28)
  else if m = 4 ∨ m = 6 ∨ m = 9 ∨ m = 11 then 30
  else 31

/-- A `datetime.date` value. -/
structure PyDate where
  year : Nat
  month : Nat
  day : Nat
deriving DecidableEq, Repr

/-- One-digit month alternative `[1-9]` of the `%m` regex. -/
def monthVal1 (c : Char) : Option Nat :=
  if isDig c ∧ 1 ≤ dval c then some (dval c) else none

/-- Two-digit month alternatives `1[0-2]|0[1-9]` of the `%m` regex: two
digit characters whose value lies in `1..12` (a value `≤ 9` forces the
leading character to be `0`). -/
def monthVal2 (c1 c2 : Char) : Option Nat :=
  if isDig c1 ∧ isDig c2 then
    if 1 ≤ 10 * dval c1 + dval c2 ∧ 10 * dval c1 + dval c2 ≤ 12 then
      some (10 * dval c1 + dval c2)
    else none
  else none

/-- One-digit day alternative `[1-9]` of the `%d` regex. -/
def dayVal1 (c : Char) : Option Nat :=
  if isDig c ∧ 1 ≤ dval c then some (dval c) else none

/-- Two-character day alternatives `3[01]|[12]\d|0[1-9]| [1-9]` of the
`%d` regex: either two digit characters whose value lies in `1..31`, or a
blank followed by a digit `1..9` (the value of the captured group under
`int()`, which ignores the blank). -/
def dayVal2 (c1 c2 : Char) : Option Nat :=
  if isDig c1 ∧ isDig c2 then
    if 1 ≤ 10 * dval c1 + dval c2 ∧ 10 * dval c1 + dval c2 ≤ 31 then
      some (10 * dval c1 + dval c2)
    else none
  else
    if c1 = ' ' ∧ isDig c2 ∧ 1 ≤ dval c2 then some (dval c2) else none

/-- The month-dash-day tail of the strptime regex on the characters after
`"YYYY-"`: a 1- or 2-character month, a literal `-`, and a 1- or
2-character day (two digits, one digit, or a blank-padded digit) that
must end the string. -/
def parseMD (l : List Char) : Option (Nat × Nat) :=
  match l with
  | [m1, x, d1] =>
    if x = '-' then
      match monthVal1 m1, dayVal1 d1 with
      | some m, some d => some (m, d)
      | _, _ => none
    else none
  | [m1, x, d1, d2] =>
    if x = '-' then
      match monthVal1 m1, dayVal2 d1 d2 with
      | some m, some d => some (m, d)
      | _, _ => none
    else
      if d1 = '-' then
        match monthVal2 m1 x, dayVal1 d2 with
        | some m, some d => some (m, d)
        | _, _ => none
      else none
  | [m1, m2, x, d1, d2] =>
    if x = '-' then
      match monthVal2 m1 m2, dayVal2 d1 d2 with
      | some m, some d => some (m, d)
      | _, _ => none
    else none
  | _ => none

/-- Embeds `datetime.strptime(s, "%Y-%m-%d").date()` on the character list of `s`:
four digits, a literal `-`, then the month/day tail; the `datetime`
constructor additionally requires `1 ≤ year` and `day ≤ daysInMonth`. -/
def parseDateChars (l : List Char) : Option PyDate :=
  match l with
  | a :: b :: c :: d :: x :: rest =>
    if isDig a ∧ isDig b ∧ isDig c ∧ isDig d ∧ x = '-' then
      match parseMD rest with
      | some (m, dd) =>
        let y := 1000 * dval a + 100 * dval b + 10 * dval c + dval d
        if 1 ≤ y ∧ dd ≤ daysInMonth y m then some ⟨y, m, dd⟩ else none
      | none => none
    else none
  | _ => none

/-- An HTTP error response (`HTTPException(status_code, detail)`). -/
structure HTTPError where
  status : Nat
  detail : String
deriving DecidableEq, Repr

/-- Embeds `parse_date_string`: strptime with `ValueError` mapped to HTTP 400. -/
def parse_date_string (s : String) : Except HTTPError PyDate :=
  match parseDateChars s.data with
  | some d => .ok d
  | none => .error ⟨400, "Invalid date format. Expected YYYY-MM-DD"⟩

/-- Embeds `d.strftime("%Y-%m-%d")`: zero-padded four-digit year, two-digit month
and day. -/
def formatDate (d : PyDate) : String :=
  ⟨[digitChar (d.year / 1000 % 10), digitChar (d.year / 100 % 10),
    digitChar (d.year / 10 % 10), digitChar (d.year % 10), '-',
    digitChar (d.month / 10 % 10), digitChar (d.month % 10), '-',
    digitChar (d.day / 10 % 10), digitChar (d.day % 10)]⟩

/-- A row of the `solutions` table; `α` is the type of the JSON value held
by the `categories` column (the handler never inspects it). -/
structure Row (α : Type) where
  game_date : PyDate
  game_id : Int
  editor : String
  categories : α
deriving DecidableEq

/-- The `ConnectionsGame` response model of the 200 body. -/
structure ConnectionsGame (α : Type) where
  id : Int
  print_date : String
  editor : String
  categories : α
deriving DecidableEq

/-- Outcome of a request: a 200 body or an `HTTPException`. -/
inductive Response (α : Type) where
  | ok : ConnectionsGame α → Response α
  | err : HTTPError → Response α
deriving DecidableEq

/-- HTTP status of a response (FastAPI sends 200 for a returned model). -/
def Response.status {α : Type} : Response α → Nat
  | .ok _ => 200
  | .err e => e.status

/-- Behaviour of the database backend for one request: `psycopg2.connect`
fails, `cursor.execute`/`fetchone` fails, or the query runs against the
rows of the `solutions` table. -/
inductive DbOutcome (α : Type) where
  | connectFail : String → DbOutcome α
  | queryFail : String → DbOutcome α
  | rows : List (Row α) → DbOutcome α

/-- Connection-lifecycle record of one request: whether a connection was
acquired, rolled back, closed, and which SQL text/parameter pair was sent
with `cursor.execute`. -/
structure ConnTrace where
  acquired : Bool
  rolledBack : Bool
  closed : Bool
  executed : Option (String × PyDate)
deriving DecidableEq, Repr

/-- Trace of a request that never touched the database. -/
def noDbTrace : ConnTrace := ⟨false, false, false, none⟩

/-- The SQL string literal passed to `cursor.execute` in the handler. -/
def connectionsQuerySQL : String :=
  "\n            SELECT game_date, game_id, editor, categories\n            FROM solutions \n            WHERE game_date = %s\n        "

/-- The `/v1/connections/{date}` handler together with the
`get_db_connection` context manager.

* `parse_date_string` runs first; on failure its 400 propagates and the
  database is never touched.
* `psycopg2.connect` failure: `conn` is still `None`, so no rollback and
  no close happen, and the `except psycopg2.Error` arm raises the 500.
* query failure: the connection is rolled back, the 500 is raised, and the
  `finally` arm closes the connection.
* otherwise `fetchone` returns the first row matching the parsed date
  (`None` giving the 404, whose detail interpolates the raw path string),
  and the `finally` arm closes the connection. -/
def get_connections_game {α : Type} (db : DbOutcome α) (date : String) :
    Response α × ConnTrace :=
  match parse_date_string date with
  | .error e => (.err e, noDbTrace)
  | .ok p =>
    match db with
    | .connectFail msg =>
      (.err ⟨500, "Database error: " ++ msg⟩, ⟨false, false, false, none⟩)
    | .queryFail msg =>
      (.err ⟨500, "Database error: " ++ msg⟩,
        ⟨true, true, true, some (connectionsQuerySQL, p)⟩)
    | .rows rs =>
      match (rs.filter (fun r => r.game_date = p)).head? with
      | none =>
        (.err ⟨404, "No game data found for date " ++ date⟩,
          ⟨true, false, true, some (connectionsQuerySQL, p)⟩)
      | some r =>
        (.ok ⟨r.game_id, formatDate r.game_date, r.editor, r.categories⟩,
          ⟨true, false, true, some (connectionsQuerySQL, p)⟩)

/-- The `/health` handler.  It takes the backend behaviour as an argument
only to state that the response is independent of it: the Python handler
body is the constant `{"status": "healthy"}` and performs no database
call. -/
def health_check {α : Type} (_db : DbOutcome α) :
    (Nat × List (String × String)) × ConnTrace :=
  ((200, [("status", "healthy")]), noDbTrace)

/-- One request against a store state, returning the store state after the
request: the handler only issues a `SELECT`, so the table is unchanged. -/
def get_connections_game_store {α : Type} (st : List (Row α)) (date : String) :
    (Response α × ConnTrace) × List (Row α) :=
  (get_connections_game (.rows st) date, st)

/-- Spec-side predicate for claim scope: `s` is a strict
`YYYY-MM-DD` rendering of a real calendar date (four-digit year,
two-digit month, two-digit day, within Python's year range). -/
def isValidDateString (s : String) : Bool :=
  match s.data with
  | [a, b, c, d, x, e, f, y, g, h] =>
    isDig a && isDig b && isDig c && isDig d && (x = '-') &&
    isDig e && isDig f && (y = '-') && isDig g && isDig h &&
    (let yv := 1000 * dval a + 100 * dval b + 10 * dval c + dval d
     let mv := 10 * dval e + dval f
     let dv := 10 * dval g + dval h
     decide (1 ≤ yv) && decide (1 ≤ mv) && decide (mv ≤ 12) &&
     decide (1 ≤ dv) && decide (dv ≤ daysInMonth yv mv))
  | _ => false

/-- The string consists of ASCII characters only.  On such strings the
embedding of the strptime regex is exact, since `\d` can then only match
`0-9`. -/
def isASCII (s : String) : Bool := s.data.all (fun c => c.toNat ≤ 127)

/-- Embeds `int()` applied to a captured day group: the `%d` regex may
capture a leading blank (its ` [1-9]` alternative), which `int` ignores. -/
def dayValueOf (cd : List Char) : Nat :=
  match cd with
  | [] => 0
  | c :: t => if c = ' ' then digitsToNat t else digitsToNat (c :: t)

/-- Spec-side predicate: `s` is a string the strptime pattern accepts and
that denotes a real calendar date — a four-digit year, a one- or
two-digit month in `1..12`, and a day segment (one or two digits, or a
blank-padded digit) within the month length, separated by dashes, with
year at least 1. -/
def laxDateString (s : String) : Prop :=
  ∃ cy cm cd : List Char,
    s.data = cy ++ '-' :: (cm ++ '-' :: cd) ∧
    (∀ c ∈ cy, isDig c) ∧ (∀ c ∈ cm, isDig c) ∧
    cy.length = 4 ∧ 1 ≤ cm.length ∧ cm.length ≤ 2 ∧
    (((∀ c ∈ cd, isDig c) ∧ 1 ≤ cd.length ∧ cd.length ≤ 2) ∨
      (∃ c, cd = [' ', c] ∧ isDig c ∧ 1 ≤ dval c)) ∧
    1 ≤ digitsToNat cy ∧
    1 ≤ digitsToNat cm ∧ digitsToNat cm ≤ 12 ∧
    1 ≤ dayValueOf cd ∧
    dayValueOf cd ≤ daysInMonth (digitsToNat cy) (digitsToNat cm)

example : parse_date_string "2024-06-12" = .ok ⟨2024, 6, 12⟩ := by rfl
example : parse_date_string "2024-6-1" = .ok ⟨2024, 6, 1⟩ := by rfl
example : (parse_date_string "2024-02-30").isOk = false := by decide
example : (parse_date_string "not-a-date").isOk = false := by decide
example : (parse_date_string "2024-13-01").isOk = false := by decide
example : parse_date_string "2024-02-29" = .ok ⟨2024, 2, 29⟩ := by rfl
example : (parse_date_string "2023-02-29").isOk = false := by decide
example : (parse_date_string "0000-01-01").isOk = false := by decide
example : formatDate ⟨2024, 6, 1⟩ = "2024-06-01" := by decide
example : isValidDateString "2024-06-12" = true := by decide
example : isValidDateString "2024-6-1" = false := by decide
example : parse_date_string "2024-06- 1" = .ok ⟨2024, 6, 1⟩ := by rfl
example : parse_date_string "2024-6- 1" = .ok ⟨2024, 6, 1⟩ := by rfl
example : (parse_date_string "2024-06- 0").isOk = false := by decide
example : (parse_date_string "2024- 6-01").isOk = false := by decide
example : (parse_date_string "2024-06-1 ").isOk = false := by decide

/-! ## Digit-character lemmas -/

theorem isDig_iff (c : Char) : isDig c = true ↔ 48 ≤ c.toNat ∧ c.toNat ≤ 57 := by
  simp [isDig]

theorem dval_le_nine (c : Char) (h : isDig c = true) : dval c ≤ 9 := by
  rw [isDig_iff] at h
  unfold dval
  omega

theorem digitChar_dval (c : Char) (h : isDig c = true) : digitChar (dval c) = c := by
  rw [isDig_iff] at h
  unfold digitChar dval
  have h48 : 48 + (c.toNat - 48) = c.toNat := by omega
  rw [h48, Char.ofNat_toNat]

theorem isDig_digitChar (n : Nat) (h : n < 10) : isDig (digitChar n) = true := by
  interval_cases n <;> decide

theorem dval_digitChar (n : Nat) (h : n < 10) : dval (digitChar n) = n := by
  interval_cases n <;> decide

theorem digitsToNat_one (c : Char) : digitsToNat [c] = dval c := by
  simp [digitsToNat]

theorem digitsToNat_two (c1 c2 : Char) :
    digitsToNat [c1, c2] = 10 * dval c1 + dval c2 := by
  simp [digitsToNat]

theorem digitsToNat_four (a b c d : Char) :
    digitsToNat [a, b, c, d] =
      1000 * dval a + 100 * dval b + 10 * dval c + dval d := by
  simp [digitsToNat]
  ring

/-! ## Calendar lemmas -/

theorem daysInMonth_le_31 (y m : Nat) : daysInMonth y m ≤ 31 := by
  unfold daysInMonth
  split
  · split <;> omega
  · split <;> omega

theorem isDig_ne_space {c : Char} (h : isDig c = true) : c ≠ ' ' := by
  intro hc
  subst hc
  exact absurd h (by decide)

theorem dayValueOf_space (c : Char) : dayValueOf [' ', c] = dval c := by
  unfold dayValueOf
  dsimp only
  rw [if_pos rfl]
  exact digitsToNat_one c

theorem dayValueOf_eq_digitsToNat {cd : List Char} (h : ∀ c ∈ cd, isDig c = true) :
    dayValueOf cd = digitsToNat cd := by
  cases cd with
  | nil => rfl
  | cons c t =>
    unfold dayValueOf
    dsimp only
    rw [if_neg (isDig_ne_space (h c (List.mem_cons_self c t)))]

/-! ## Soundness of the regex-alternative value functions -/

theorem monthVal1_sound {c : Char} {m : Nat} (h : monthVal1 c = some m) :
    isDig c = true ∧ m = dval c ∧ 1 ≤ m ∧ m ≤ 9 := by
  unfold monthVal1 at h
  split at h
  · rename_i hc
    injection h with h'
    have h9 := dval_le_nine c hc.1
    exact ⟨hc.1, h'.symm, by omega, by omega⟩
  · exact absurd h (by simp)

theorem monthVal2_sound {c1 c2 : Char} {m : Nat} (h : monthVal2 c1 c2 = some m) :
    isDig c1 = true ∧ isDig c2 = true ∧
      m = 10 * dval c1 + dval c2 ∧ 1 ≤ m ∧ m ≤ 12 := by
  unfold monthVal2 at h
  split at h
  · rename_i hc
    split at h
    · rename_i hv
      injection h with h'
      exact ⟨hc.1, hc.2, h'.symm, by omega, by omega⟩
    · exact absurd h (by simp)
  · exact absurd h (by simp)

theorem dayVal1_sound {c : Char} {d : Nat} (h : dayVal1 c = some d) :
    isDig c = true ∧ d = dval c ∧ 1 ≤ d ∧ d ≤ 9 := by
  unfold dayVal1 at h
  split at h
  · rename_i hc
    injection h with h'
    have h9 := dval_le_nine c hc.1
    exact ⟨hc.1, h'.symm, by omega, by omega⟩
  · exact absurd h (by simp)

theorem dayVal2_sound {c1 c2 : Char} {d : Nat} (h : dayVal2 c1 c2 = some d) :
    (isDig c1 = true ∧ isDig c2 = true ∧
       d = 10 * dval c1 + dval c2 ∧ 1 ≤ d ∧ d ≤ 31) ∨
    (c1 = ' ' ∧ isDig c2 = true ∧ d = dval c2 ∧ 1 ≤ d ∧ d ≤ 9) := by
  unfold dayVal2 at h
  split at h
  · rename_i hc
    split at h
    · rename_i hv
      injection h with h'
      exact Or.inl ⟨hc.1, hc.2, h'.symm, by omega, by omega⟩
    · exact absurd h (by simp)
  · split at h
    · rename_i hc
      injection h with h'
      have h9 := dval_le_nine c2 hc.2.1
      exact Or.inr ⟨hc.1, hc.2.1, h'.symm, by omega, by omega⟩
    · exact absurd h (by simp)

/-- Soundness of the month-dash-day tail: a successful match decomposes the
character list into a digit month segment and a day segment that is either
all digits or a blank-padded digit. -/
theorem parseMD_sound {l : List Char} {m d : Nat} (h : parseMD l = some (m, d)) :
    ∃ cm cd : List Char,
      l = cm ++ '-' :: cd ∧
      (∀ c ∈ cm, isDig c) ∧
      1 ≤ cm.length ∧ cm.length ≤ 2 ∧
      (((∀ c ∈ cd, isDig c) ∧ 1 ≤ cd.length ∧ cd.length ≤ 2) ∨
        (∃ c, cd = [' ', c] ∧ isDig c = true ∧ 1 ≤ dval c)) ∧
      digitsToNat cm = m ∧ dayValueOf cd = d ∧
      1 ≤ m ∧ m ≤ 12 ∧ 1 ≤ d := by
  unfold parseMD at h
  split at h
  · rename_i m1 x d1
    split at h
    · rename_i hx
      subst hx
      split at h <;> try simp at h
      rename_i m' d' hm hd
      obtain ⟨rfl, rfl⟩ := h
      obtain ⟨hma, hmb, hmc, hmd⟩ := monthVal1_sound hm
      obtain ⟨hda, hdb, hdc, hdd⟩ := dayVal1_sound hd
      refine ⟨[m1], [d1], rfl, by simp [hma], by simp, by simp,
        Or.inl ⟨by simp [hda], by simp, by simp⟩,
        by rw [digitsToNat_one]; omega,
        by rw [dayValueOf_eq_digitsToNat (by simp [hda]), digitsToNat_one]; omega,
        by omega, by omega, by omega⟩
    · simp at h
  · rename_i m1 x d1 d2
    split at h
    · rename_i hx
      subst hx
      split at h <;> try simp at h
      rename_i m' d' hm hd
      obtain ⟨rfl, rfl⟩ := h
      obtain ⟨hma, hmb, hmc, hmd⟩ := monthVal1_sound hm
      rcases dayVal2_sound hd with ⟨hda, hdb, hdc, hdd, hde⟩ | ⟨hsp, hdb, hdc, hdd, hde⟩
      · refine ⟨[m1], [d1, d2], rfl, by simp [hma], by simp, by simp,
          Or.inl ⟨by simp [hda, hdb], by simp, by simp⟩,
          by rw [digitsToNat_one]; omega,
          by rw [dayValueOf_eq_digitsToNat (by simp [hda, hdb]), digitsToNat_two]; omega,
          by omega, by omega, by omega⟩
      · subst hsp
        refine ⟨[m1], [' ', d2], rfl, by simp [hma], by simp, by simp,
          Or.inr ⟨d2, rfl, hdb, by omega⟩,
          by rw [digitsToNat_one]; omega,
          by rw [dayValueOf_space]; omega,
          by omega, by omega, by omega⟩
    · rename_i hx
      split at h
      · rename_i hd1
        subst hd1
        split at h <;> try simp at h
        rename_i m' d' hm hd
        obtain ⟨rfl, rfl⟩ := h
        obtain ⟨hma, hmb, hmc, hmd, hme⟩ := monthVal2_sound hm
        obtain ⟨hda, hdb, hdc, hdd⟩ := dayVal1_sound hd
        refine ⟨[m1, x], [d2], rfl, by simp [hma, hmb], by simp, by simp,
          Or.inl ⟨by simp [hda], by simp, by simp⟩,
          by rw [digitsToNat_two]; omega,
          by rw [dayValueOf_eq_digitsToNat (by simp [hda]), digitsToNat_one]; omega,
          by omega, by omega, by omega⟩
      · simp at h
  · rename_i m1 m2 x d1 d2
    split at h
    · rename_i hx
      subst hx
      split at h <;> try simp at h
      rename_i m' d' hm hd
      obtain ⟨rfl, rfl⟩ := h
      obtain ⟨hma, hmb, hmc, hmd, hme⟩ := monthVal2_sound hm
      rcases dayVal2_sound hd with ⟨hda, hdb, hdc, hdd, hde⟩ | ⟨hsp, hdb, hdc, hdd, hde⟩
      · refine ⟨[m1, m2], [d1, d2], rfl, by simp [hma, hmb], by simp, by simp,
          Or.inl ⟨by simp [hda, hdb], by simp, by simp⟩,
          by rw [digitsToNat_two]; omega,
          by rw [dayValueOf_eq_digitsToNat (by simp [hda, hdb]), digitsToNat_two]; omega,
          by omega, by omega, by omega⟩
      · subst hsp
        refine ⟨[m1, m2], [' ', d2], rfl, by simp [hma, hmb], by simp, by simp,
          Or.inr ⟨d2, rfl, hdb, by omega⟩,
          by rw [digitsToNat_two]; omega,
          by rw [dayValueOf_space]; omega,
          by omega, by omega, by omega⟩
    · simp at h
  · simp at h

/-! ## Completeness on canonical two-digit strings -/

theorem monthVal2_complete {c1 c2 : Char} (h1 : isDig c1 = true) (h2 : isDig c2 = true)
    (hlo : 1 ≤ 10 * dval c1 + dval c2) (hhi : 10 * dval c1 + dval c2 ≤ 12) :
    monthVal2 c1 c2 = some (10 * dval c1 + dval c2) := by
  unfold monthVal2
  rw [if_pos ⟨h1, h2⟩, if_pos ⟨hlo, hhi⟩]

theorem dayVal2_complete {c1 c2 : Char} (h1 : isDig c1 = true) (h2 : isDig c2 = true)
    (hlo : 1 ≤ 10 * dval c1 + dval c2) (hhi : 10 * dval c1 + dval c2 ≤ 31) :
    dayVal2 c1 c2 = some (10 * dval c1 + dval c2) := by
  unfold dayVal2
  rw [if_pos ⟨h1, h2⟩, if_pos ⟨hlo, hhi⟩]

theorem parseMD_complete5 {e f g k : Char}
    (he : isDig e = true) (hf : isDig f = true) (hg : isDig g = true) (hk : isDig k = true)
    (hm1 : 1 ≤ 10 * dval e + dval f) (hm2 : 10 * dval e + dval f ≤ 12)
    (hd1 : 1 ≤ 10 * dval g + dval k) (hd2 : 10 * dval g + dval k ≤ 31) :
    parseMD [e, f, '-', g, k] = some (10 * dval e + dval f, 10 * dval g + dval k) := by
  unfold parseMD
  dsimp only
  rw [monthVal2_complete he hf hm1 hm2, dayVal2_complete hg hk hd1 hd2]
  rfl

theorem parseDateChars_complete10 {a b c d e f g k : Char}
    (ha : isDig a = true) (hb : isDig b = true) (hc : isDig c = true) (hd : isDig d = true)
    (he : isDig e = true) (hf : isDig f = true) (hg : isDig g = true) (hk : isDig k = true)
    (hy : 1 ≤ 1000 * dval a + 100 * dval b + 10 * dval c + dval d)
    (hm1 : 1 ≤ 10 * dval e + dval f) (hm2 : 10 * dval e + dval f ≤ 12)
    (hd1 : 1 ≤ 10 * dval g + dval k)
    (hd2 : 10 * dval g + dval k ≤
      daysInMonth (1000 * dval a + 100 * dval b + 10 * dval c + dval d)
        (10 * dval e + dval f)) :
    parseDateChars [a, b, c, d, '-', e, f, '-', g, k] =
      some ⟨1000 * dval a + 100 * dval b + 10 * dval c + dval d,
            10 * dval e + dval f, 10 * dval g + dval k⟩ := by
  have h31 : 10 * dval g + dval k ≤ 31 :=
    le_trans hd2 (daysInMonth_le_31 _ _)
  unfold parseDateChars
  dsimp only
  rw [if_pos ⟨ha, hb, hc, hd, rfl⟩, parseMD_complete5 he hf hg hk hm1 hm2 hd1 h31]
  exact if_pos ⟨hy, hd2⟩

/-! ## Parser soundness: acceptance implies a lax date decomposition -/

theorem parse_ok_lax {s : String} {p : PyDate} (h : parse_date_string s = .ok p) :
    laxDateString s := by
  unfold parse_date_string at h
  cases hpc : parseDateChars s.data with
  | none => rw [hpc] at h; cases h
  | some q =>
    unfold parseDateChars at hpc
    split at hpc
    · rename_i a b c d x rest heq
      split at hpc
      · rename_i hcond
        obtain ⟨ha, hb, hc, hd, hx⟩ := hcond
        subst hx
        split at hpc <;> try simp at hpc
        rename_i m dd hmd
        obtain ⟨hyd, hq⟩ := hpc
        obtain ⟨cm, cd', hrest, hdm, hl1, hl2, hday, hvm, hvd, hm1, hm12, hdlo⟩ :=
          parseMD_sound hmd
        refine ⟨[a, b, c, d], cm, cd', ?_, ?_, hdm, rfl, hl1, hl2, hday,
          ?_, ?_, ?_, ?_, ?_⟩
        · rw [heq, hrest]; rfl
        · intro ch hch
          simp at hch
          rcases hch with rfl | rfl | rfl | rfl
          exacts [ha, hb, hc, hd]
        · rw [digitsToNat_four]; omega
        · omega
        · omega
        · omega
        · rw [digitsToNat_four, hvm, hvd]; exact hyd.2
      · cases hpc
    · cases hpc

/-- A parse failure is exactly the 400 `HTTPException` of the handler. -/
theorem parse_error_eq {s : String} {e : HTTPError}
    (h : parse_date_string s = .error e) :
    e = ⟨400, "Invalid date format. Expected YYYY-MM-DD"⟩ := by
  unfold parse_date_string at h
  split at h
  · cases h
  · injection h with h'
    exact h'.symm

/-! ## List helper lemmas for `fetchone` -/

theorem filter_head?_some {β : Type} {l : List β} {p : β → Bool} {r : β}
    (h : (l.filter p).head? = some r) : r ∈ l ∧ p r = true := by
  cases hl : l.filter p with
  | nil => rw [hl] at h; cases h
  | cons a t =>
    rw [hl] at h
    injection h with h'
    subst h'
    have hm : a ∈ l.filter p := by rw [hl]; exact List.mem_cons_self a t
    exact List.mem_filter.mp hm

theorem filter_head?_none {β : Type} {l : List β} {p : β → Bool}
    (h : (l.filter p).head? = none) : ∀ x ∈ l, p x = false := by
  intro x hx
  have hnil : l.filter p = [] := by
    cases hl : l.filter p with
    | nil => rfl
    | cons a t => rw [hl] at h; cases h
  cases hpx : p x with
  | false => rfl
  | true =>
    have : x ∈ l.filter p := List.mem_filter.mpr ⟨hx, hpx⟩
    rw [hnil] at this
    cases this

theorem head_filter_of_unique {β : Type} {l : List β} {p : β → Bool} {r : β}
    (hr : r ∈ l) (hp : p r = true) (hu : ∀ x ∈ l, p x = true → x = r) :
    (l.filter p).head? = some r := by
  induction l with
  | nil => cases hr
  | cons a t ih =>
    rcases List.mem_cons.mp hr with rfl | hrt
    · simp [List.filter_cons, hp]
    · cases ha : p a with
      | true =>
        have haa : a = r := hu a (List.mem_cons_self a t) ha
        subst haa
        simp [List.filter_cons, ha]
      | false =>
        rw [List.filter_cons, if_neg (by simp [ha])]
        exact ih hrt (fun x hx hpx => hu x (List.mem_cons_of_mem a hx) hpx)

theorem string_data_inj {s t : String} (h : s.data = t.data) : s = t := by
  cases s
  cases t
  simp_all

/-! ## `strftime` round-trip on canonical strings -/

theorem formatDate_digits {a b c d e f g k : Char}
    (ha : isDig a = true) (hb : isDig b = true) (hc : isDig c = true) (hd : isDig d = true)
    (he : isDig e = true) (hf : isDig f = true) (hg : isDig g = true) (hk : isDig k = true) :
    formatDate ⟨1000 * dval a + 100 * dval b + 10 * dval c + dval d,
                10 * dval e + dval f, 10 * dval g + dval k⟩ =
      ⟨[a, b, c, d, '-', e, f, '-', g, k]⟩ := by
  have na := dval_le_nine a ha
  have nb := dval_le_nine b hb
  have nc := dval_le_nine c hc
  have nd := dval_le_nine d hd
  have ne' := dval_le_nine e he
  have nf := dval_le_nine f hf
  have ng := dval_le_nine g hg
  have nk := dval_le_nine k hk
  have e1 : (1000 * dval a + 100 * dval b + 10 * dval c + dval d) / 1000 % 10 = dval a := by
    omega
  have e2 : (1000 * dval a + 100 * dval b + 10 * dval c + dval d) / 100 % 10 = dval b := by
    omega
  have e3 : (1000 * dval a + 100 * dval b + 10 * dval c + dval d) / 10 % 10 = dval c := by
    omega
  have e4 : (1000 * dval a + 100 * dval b + 10 * dval c + dval d) % 10 = dval d := by
    omega
  have e5 : (10 * dval e + dval f) / 10 % 10 = dval e := by omega
  have e6 : (10 * dval e + dval f) % 10 = dval f := by omega
  have e7 : (10 * dval g + dval k) / 10 % 10 = dval g := by omega
  have e8 : (10 * dval g + dval k) % 10 = dval k := by omega
  unfold formatDate
  dsimp only
  rw [e1, e2, e3, e4, e5, e6, e7, e8,
    digitChar_dval a ha, digitChar_dval b hb, digitChar_dval c hc, digitChar_dval d hd,
    digitChar_dval e he, digitChar_dval f hf, digitChar_dval g hg, digitChar_dval k hk]

/-- A strict `YYYY-MM-DD` calendar-date string parses to the date it
denotes, and `strftime` renders that date back to the same string. -/
theorem valid_parse {s : String} (h : isValidDateString s = true) :
    ∃ p : PyDate, parse_date_string s = .ok p ∧ formatDate p = s := by
  unfold isValidDateString at h
  split at h
  · rename_i a b c d x e f y g k heq
    simp only [Bool.and_eq_true, decide_eq_true_eq] at h
    obtain ⟨⟨⟨⟨⟨⟨⟨⟨⟨⟨ha, hb⟩, hc⟩, hd⟩, hx⟩, he⟩, hf⟩, hy⟩, hg⟩, hk⟩,
      ⟨⟨⟨⟨hy1, hm1⟩, hm2⟩, hd1⟩, hd2⟩⟩ := h
    subst hx
    subst hy
    refine ⟨⟨1000 * dval a + 100 * dval b + 10 * dval c + dval d,
             10 * dval e + dval f, 10 * dval g + dval k⟩, ?_, ?_⟩
    · unfold parse_date_string
      rw [heq, parseDateChars_complete10 ha hb hc hd he hf hg hk hy1 hm1 hm2 hd1 hd2]
    · rw [formatDate_digits ha hb hc hd he hf hg hk]
      exact (string_data_inj heq).symm
  · cases h

/-- On every code path the connection-closed flag of the trace agrees with
the connection-acquired flag: `get_db_connection` closes in `finally`
exactly when `psycopg2.connect` succeeded. -/
theorem closed_eq_acquired {α : Type} (db : DbOutcome α) (s : String) :
    (get_connections_game db s).2.closed = (get_connections_game db s).2.acquired := by
  unfold get_connections_game
  split
  · rfl
  · split
    · rfl
    · rfl
    · split <;> rfl

/-- The code accepts one-digit months and days: no lax decomposition of
`"2024-02-30"` exists (February 2024 has 29 days). -/
theorem not_lax_20240230 : ¬ laxDateString "2024-02-30" := by
  rintro ⟨cy, cm, cd, heq, hdy, hdm, hly, hlm1, hlm2, hday,
    hy1, hm1, hm12, hd1, hdle⟩
  have hdata : ("2024-02-30").data = ['2', '0', '2', '4', '-', '0', '2', '-', '3', '0'] := rfl
  rw [hdata] at heq
  rcases cy with _ | ⟨a, _ | ⟨b, _ | ⟨c, _ | ⟨d, _ | ⟨x, t⟩⟩⟩⟩⟩ <;>
    simp only [List.length_cons, List.length_nil] at hly <;> try omega
  simp only [List.cons_append, List.nil_append, List.cons.injEq] at heq
  obtain ⟨rfl, rfl, rfl, rfl, -, heq2⟩ := heq
  rcases cm with _ | ⟨m1, _ | ⟨m2, t2⟩⟩
  · simp at hlm1
  · simp only [List.cons_append, List.nil_append, List.cons.injEq] at heq2
    exact absurd heq2.2.1 (by decide)
  · rcases t2 with _ | ⟨m3, t3⟩
    · simp only [List.cons_append, List.nil_append, List.cons.injEq] at heq2
      obtain ⟨rfl, rfl, -, heq3⟩ := heq2
      obtain rfl : cd = ['3', '0'] := heq3.symm
      exact absurd hdle (by decide)
    · simp at hlm2

/-! ## Claim theorems -/

/-- Claim C1: for every request string that is a strict `YYYY-MM-DD`
calendar date, the endpoint evaluated against the table rows returns
either 200 with a body whose `print_date` equals the request string, or
404 when no row has that date — never any other status. -/
theorem claim_C1_valid_date_200_or_404 {α : Type} (rs : List (Row α)) (s : String)
    (p : PyDate) (hs : isValidDateString s = true)
    (hp : parse_date_string s = .ok p) :
    (∃ g, (get_connections_game (.rows rs) s).1 = .ok g ∧ g.print_date = s) ∨
    ((get_connections_game (.rows rs) s).1 =
        .err ⟨404, "No game data found for date " ++ s⟩ ∧
      ∀ r ∈ rs, r.game_date ≠ p) := by
  obtain ⟨p', hp', hfmt⟩ := valid_parse hs
  rw [hp] at hp'
  injection hp' with hpp
  subst hpp
  unfold get_connections_game
  rw [hp]
  dsimp only
  cases hh : (rs.filter (fun r => r.game_date = p)).head? with
  | some r =>
    left
    obtain ⟨hmem, hpr⟩ := filter_head?_some hh
    have hdate : r.game_date = p := of_decide_eq_true hpr
    exact ⟨⟨r.game_id, formatDate r.game_date, r.editor, r.categories⟩, rfl,
      by rw [hdate]; exact hfmt⟩
  | none =>
    right
    refine ⟨rfl, fun r hr => ?_⟩
    have hfalse := filter_head?_none hh r hr
    simpa using hfalse

/-- Claim C1 witness: the scenario date `2024-06-12` with a matching row. -/
theorem claim_C1_witness :
    isValidDateString "2024-06-12" = true ∧
    parse_date_string "2024-06-12" = .ok ⟨2024, 6, 12⟩ ∧
    ((∃ g, (get_connections_game
        (.rows [⟨⟨2024, 6, 12⟩, 500, "Wyna Liu", (0 : Nat)⟩]) "2024-06-12").1 = .ok g ∧
        g.print_date = "2024-06-12") ∨
      ((get_connections_game
          (.rows [⟨⟨2024, 6, 12⟩, 500, "Wyna Liu", (0 : Nat)⟩]) "2024-06-12").1 =
          .err ⟨404, "No game data found for date " ++ "2024-06-12"⟩ ∧
        ∀ r ∈ [(⟨⟨2024, 6, 12⟩, 500, "Wyna Liu", (0 : Nat)⟩ : Row Nat)],
          r.game_date ≠ ⟨2024, 6, 12⟩)) :=
  ⟨by decide, by rfl,
    claim_C1_valid_date_200_or_404 [⟨⟨2024, 6, 12⟩, 500, "Wyna Liu", (0 : Nat)⟩]
      "2024-06-12" ⟨2024, 6, 12⟩ (by decide) (by rfl)⟩

/-- Claim C2 counterexample: `"2024-6-1"` is not a strict four-digit-year/
two-digit-month/two-digit-day date, yet the endpoint does not answer 400:
it performs the lookup (acquiring a connection) and answers 404 on an
empty table. -/
theorem claim_C2_counterexample :
    isValidDateString "2024-6-1" = false ∧
    (get_connections_game (.rows ([] : List (Row Nat))) "2024-6-1").1 ≠
      .err ⟨400, "Invalid date format. Expected YYYY-MM-DD"⟩ ∧
    (get_connections_game (.rows ([] : List (Row Nat))) "2024-6-1").2.acquired = true := by
  refine ⟨by decide, ?_, by rfl⟩
  intro hcontra
  have h404 : (get_connections_game (.rows ([] : List (Row Nat))) "2024-6-1").1 =
      .err ⟨404, "No game data found for date 2024-6-1"⟩ := by rfl
  rw [h404] at hcontra
  exact absurd hcontra (by decide)

/-- Claim C2 (amended): for every ASCII request string that the strptime
pattern rejects — not of the form four-digit year, dash, one- or
two-digit month, dash, day written as two digits, one digit, or a blank
followed by a digit, denoting a real calendar date with year ≥ 1 — the
endpoint returns exactly 400 with detail
`"Invalid date format. Expected YYYY-MM-DD"` and neither connects to the
store nor sends any query.  (The `\d` class of the `re` module also
admits non-ASCII decimal digits, whose exact set depends on the
runtime's Unicode tables; such inputs are outside this statement, which
is why it is scoped to ASCII strings, where the embedding of the pattern
is exact.) -/
theorem claim_C2_amended {α : Type} (db : DbOutcome α) (s : String)
    (hascii : isASCII s = true) (h : ¬ laxDateString s) :
    get_connections_game db s =
      (.err ⟨400, "Invalid date format. Expected YYYY-MM-DD"⟩, noDbTrace) := by
  cases hps : parse_date_string s with
  | ok p => exact absurd (parse_ok_lax hps) h
  | error e =>
    have he := parse_error_eq hps
    subst he
    unfold get_connections_game
    rw [hps]

/-- Claim C2 witness: the impossible date `2024-02-30` is rejected with a
400 and no store interaction. -/
theorem claim_C2_amended_witness :
    isASCII "2024-02-30" = true ∧
    ¬ laxDateString "2024-02-30" ∧
    get_connections_game (.rows ([] : List (Row Nat))) "2024-02-30" =
      (.err ⟨400, "Invalid date format. Expected YYYY-MM-DD"⟩, noDbTrace) :=
  ⟨by decide, not_lax_20240230, claim_C2_amended _ _ (by decide) not_lax_20240230⟩

/-- Claim C3: on a successful lookup the 200 body maps the row's
`game_id` to `id`, the row's date rendered by `strftime("%Y-%m-%d")` to
`print_date`, the row's `editor` verbatim, and the row's JSON
`categories` column verbatim (the handler is parametric in the categories
value and cannot reshape it). -/
theorem claim_C3_success_mapping {α : Type} (rs : List (Row α)) (s : String)
    (p : PyDate) (r : Row α) (hp : parse_date_string s = .ok p)
    (hr : r ∈ rs) (hd : r.game_date = p)
    (hu : ∀ r' ∈ rs, r'.game_date = p → r' = r) :
    (get_connections_game (.rows rs) s).1 =
      .ok ⟨r.game_id, formatDate r.game_date, r.editor, r.categories⟩ := by
  unfold get_connections_game
  rw [hp]
  dsimp only
  rw [head_filter_of_unique hr (decide_eq_true hd)
    (fun x hx hpx => hu x hx (of_decide_eq_true hpx))]

/-- Claim C3 witness: the spec's concrete scenario row for `2024-06-12`. -/
theorem claim_C3_witness :
    parse_date_string "2024-06-12" = .ok ⟨2024, 6, 12⟩ ∧
    (get_connections_game
        (.rows [⟨⟨2024, 6, 12⟩, 500, "Wyna Liu", "FRUITS"⟩]) "2024-06-12").1 =
      .ok ⟨500, "2024-06-12", "Wyna Liu", "FRUITS"⟩ :=
  ⟨by rfl,
    claim_C3_success_mapping [⟨⟨2024, 6, 12⟩, 500, "Wyna Liu", "FRUITS"⟩]
      "2024-06-12" ⟨2024, 6, 12⟩ ⟨⟨2024, 6, 12⟩, 500, "Wyna Liu", "FRUITS"⟩
      (by rfl) (by simp) rfl (by intro r' h' _; simpa using h')⟩

/-- Claim C4: for a valid date with no matching row, the endpoint returns
404 with detail `"No game data found for date {date}"`. -/
theorem claim_C4_not_found {α : Type} (rs : List (Row α)) (s : String) (p : PyDate)
    (hp : parse_date_string s = .ok p) (hn : ∀ r ∈ rs, r.game_date ≠ p) :
    (get_connections_game (.rows rs) s).1 =
      .err ⟨404, "No game data found for date " ++ s⟩ := by
  unfold get_connections_game
  rw [hp]
  dsimp only
  have hnil : rs.filter (fun r => r.game_date = p) = [] :=
    List.filter_eq_nil_iff.mpr (fun a ha => by simpa using hn a ha)
  rw [hnil]
  rfl

/-- Claim C4 witness: the spec's scenario `2099-01-01` on an empty table. -/
theorem claim_C4_witness :
    parse_date_string "2099-01-01" = .ok ⟨2099, 1, 1⟩ ∧
    (get_connections_game (.rows ([] : List (Row Nat))) "2099-01-01").1 =
      .err ⟨404, "No game data found for date 2099-01-01"⟩ :=
  ⟨by rfl, claim_C4_not_found [] "2099-01-01" ⟨2099, 1, 1⟩ (by rfl) (by simp)⟩

/-- Claim C5: if connecting to the store fails, or the query fails, the
endpoint returns 500 with detail `"Database error: {message}"`; on a query
failure the open connection is rolled back and released, and on a connect
failure no connection was acquired at all. -/
theorem claim_C5_store_error {α : Type} (s : String) (p : PyDate) (msg : String)
    (hp : parse_date_string s = .ok p) :
    (get_connections_game (α := α) (.connectFail msg) s).1 =
        .err ⟨500, "Database error: " ++ msg⟩ ∧
    (get_connections_game (α := α) (.queryFail msg) s).1 =
        .err ⟨500, "Database error: " ++ msg⟩ ∧
    (get_connections_game (α := α) (.queryFail msg) s).2.rolledBack = true ∧
    (get_connections_game (α := α) (.queryFail msg) s).2.closed = true ∧
    (get_connections_game (α := α) (.connectFail msg) s).2.acquired = false := by
  unfold get_connections_game
  rw [hp]
  exact ⟨rfl, rfl, rfl, rfl, rfl⟩

/-- Claim C5 witness: a failing backend for the date `2024-06-12`. -/
theorem claim_C5_witness :
    parse_date_string "2024-06-12" = .ok ⟨2024, 6, 12⟩ ∧
    ((get_connections_game (α := Nat) (.connectFail "connection refused") "2024-06-12").1 =
        .err ⟨500, "Database error: connection refused"⟩ ∧
      (get_connections_game (α := Nat) (.queryFail "connection refused") "2024-06-12").1 =
        .err ⟨500, "Database error: connection refused"⟩ ∧
      (get_connections_game (α := Nat) (.queryFail "connection refused") "2024-06-12").2.rolledBack = true ∧
      (get_connections_game (α := Nat) (.queryFail "connection refused") "2024-06-12").2.closed = true ∧
      (get_connections_game (α := Nat) (.connectFail "connection refused") "2024-06-12").2.acquired = false) :=
  ⟨by rfl, claim_C5_store_error "2024-06-12" ⟨2024, 6, 12⟩ "connection refused" (by rfl)⟩

/-- Claim C6: every connection acquired during a request is released
(closed) by the end of the request, on every exit path. -/
theorem claim_C6_connection_released {α : Type} (db : DbOutcome α) (s : String)
    (h : (get_connections_game db s).2.acquired = true) :
    (get_connections_game db s).2.closed = true := by
  rw [closed_eq_acquired]
  exact h

/-- Claim C6 witness: the query-failure path acquires and releases. -/
theorem claim_C6_witness :
    (get_connections_game (α := Nat) (.queryFail "boom") "2024-06-12").2.acquired = true ∧
    (get_connections_game (α := Nat) (.queryFail "boom") "2024-06-12").2.closed = true :=
  ⟨by rfl, claim_C6_connection_released _ _ (by rfl)⟩

/-- Claim C7: `GET /health` always returns 200 with body
`{"status": "healthy"}`, for every backend behaviour, and performs no
database interaction (its trace is the untouched-database trace). -/
theorem claim_C7_health {α : Type} (db : DbOutcome α) :
    health_check db = ((200, [("status", "healthy")]), noDbTrace) := rfl

/-- Claim C8: with the store state unchanged, two successive requests for
the same date string return identical responses (the lookup is a
deterministic, idempotent read that leaves the table as it was). -/
theorem claim_C8_idempotent {α : Type} (st : List (Row α)) (s : String) :
    (get_connections_game_store st s).1 =
      (get_connections_game_store (get_connections_game_store st s).2 s).1 := rfl

/-- Claim C9: whenever a query is sent to the store, its SQL text is the
fixed constant `connectionsQuerySQL` — independent of the request string —
and the date travels only as the bound parameter, which is exactly the
parsed date. -/
theorem claim_C9_parameterized_query {α : Type} (db : DbOutcome α) (s : String)
    (q : String × PyDate)
    (h : (get_connections_game db s).2.executed = some q) :
    q.1 = connectionsQuerySQL ∧ parse_date_string s = .ok q.2 := by
  unfold get_connections_game at h
  cases hps : parse_date_string s with
  | error e =>
    rw [hps] at h
    exact Option.noConfusion h
  | ok p =>
    rw [hps] at h
    cases db with
    | connectFail m => exact Option.noConfusion h
    | queryFail m =>
      injection h with h'
      subst h'
      exact ⟨rfl, rfl⟩
    | rows rs =>
      dsimp only at h
      cases hh : (rs.filter (fun r => r.game_date = p)).head? with
      | none =>
        rw [hh] at h
        injection h with h'
        subst h'
        exact ⟨rfl, rfl⟩
      | some r =>
        rw [hh] at h
        injection h with h'
        subst h'
        exact ⟨rfl, rfl⟩

/-- Claim C9 witness: an empty table still receives the constant query
with the parsed date bound. -/
theorem claim_C9_witness :
    (get_connections_game (.rows ([] : List (Row Nat))) "2024-06-12").2.executed =
      some (connectionsQuerySQL, (⟨2024, 6, 12⟩ : PyDate)) ∧
    (connectionsQuerySQL, (⟨2024, 6, 12⟩ : PyDate)).1 = connectionsQuerySQL ∧
    parse_date_string "2024-06-12" = .ok (connectionsQuerySQL, (⟨2024, 6, 12⟩ : PyDate)).2 :=
  ⟨by rfl, claim_C9_parameterized_query (.rows ([] : List (Row Nat))) "2024-06-12"
    (connectionsQuerySQL, ⟨2024, 6, 12⟩) (by rfl)⟩

/-- Claim C10: the 404 detail interpolates the client-supplied raw path
string verbatim, even when it differs from the canonical rendering of the
parsed date. -/
theorem claim_C10_raw_detail {α : Type} (rs : List (Row α)) (s : String) (p : PyDate)
    (hp : parse_date_string s = .ok p) (hn : ∀ r ∈ rs, r.game_date ≠ p)
    (hdiff : s ≠ formatDate p) :
    (get_connections_game (.rows rs) s).1 =
      .err ⟨404, "No game data found for date " ++ s⟩ := by
  unfold get_connections_game
  rw [hp]
  dsimp only
  have hnil : rs.filter (fun r => r.game_date = p) = [] :=
    List.filter_eq_nil_iff.mpr (fun a ha => by simpa using hn a ha)
  rw [hnil]
  rfl

/-- Claim C10 witness: `"2024-6-1"` parses to June 1st 2024 but differs
from its canonical rendering `"2024-06-01"`; the 404 detail carries the
raw string. -/
theorem claim_C10_witness :
    parse_date_string "2024-6-1" = .ok ⟨2024, 6, 1⟩ ∧
    "2024-6-1" ≠ formatDate ⟨2024, 6, 1⟩ ∧
    (get_connections_game (.rows ([] : List (Row Nat))) "2024-6-1").1 =
      .err ⟨404, "No game data found for date 2024-6-1"⟩ :=
  ⟨by rfl, by decide,
    claim_C10_raw_detail [] "2024-6-1" ⟨2024, 6, 1⟩ (by rfl) (by simp) (by decide)⟩

end Connections
